import Mathlib

/-!
# Verification of the scraipe-st component-configuration and execution lifecycle

Shallow embedding of `src/scraipe_st/app.py` and
`src/scraipe_st/default_config.py`: the configuration lifecycle controller
(`configure_component_loop`), the execution runner sections
(`run_scrape_section`, `run_analyze_section`), the session workflow accessor
(`App.get_workflow`) and the default link list (`get_default_links`).

Components, configurations and schemas are abstracted as natural-number
identifiers; providers are records of functions matching the
`IComponentProvider` interface.  Session state is passed explicitly.  The
external `scraipe.Workflow` collaborator and the `component_repo` module are
not part of `src/`; they are modelled from the spec where a claim needs them.
-/

namespace ScraipeSt

/-- Decidable equality for `Except`, used to evaluate embedded fallible
computations on concrete inputs. -/
instance {ε α : Type} [DecidableEq ε] [DecidableEq α] : DecidableEq (Except ε α) :=
  fun x y =>
    match x, y with
    | .ok a, .ok b =>
        if h : a = b then isTrue (by rw [h]) else isFalse (by simp [h])
    | .error a, .error b =>
        if h : a = b then isTrue (by rw [h]) else isFalse (by simp [h])
    | .ok _, .error _ => isFalse (by simp)
    | .error _, .ok _ => isFalse (by simp)

/-- Modelled from the spec: `component_repo.ComponentStatus` (the module is
not under `src/`); the spec gives the enumeration
`{NOT_READY, READY, (possibly others e.g. PENDING)}`. -/
inductive ComponentStatus where
  | READY
  | NOT_READY
  | PENDING
  deriving DecidableEq, Repr

/-- Abstract component instances (Python objects) as identifiers. -/
abbrev Component := Nat

/-- Abstract validated configuration objects as identifiers. -/
abbrev Config := Nat

/-- Abstract configuration schemas as identifiers. -/
abbrev Schema := Nat

/-- A Python value stored in `st.session_state[comp_key]`: either the bare
`None` object, or a 2-tuple `(component, status)` whose parts may each be
`None` (the code stores `provider.get_component_and_status(...)` results and
the `(component, status)` pair, and reads with default `(None, None)`). -/
inductive PyVal where
  | pynone
  | pair (c : Option Component) (s : Option ComponentStatus)
  deriving DecidableEq, Repr

/-- Modelled from the spec: the `IComponentProvider` interface of
`component_repo` (not under `src/`).  `get_component_and_status` may raise,
embedded as `Except`; `late_update` is side-effect only, so it carries no
data here and its invocations are recorded in the render trace. -/
structure Provider where
  get_config_schema : Option Schema
  get_default_config : Option Config
  get_component_and_status : Option Config → Except String (Component × ComponentStatus)
  get_component_status : Option Component → ComponentStatus

/-- The slice of `st.session_state` owned by one configurable slot:
`comp_key` (`none` = key absent) and `config_key`. -/
structure SlotState where
  comp_slot : Option PyVal
  config_slot : Option Config
  deriving DecidableEq, Repr

/-- Provider-interface calls and UI errors observable during one render
cycle of `configure_component_loop`. -/
inductive Event where
  | getCompAndStatus (arg : Option Config)
  | lateUpdate (c : Option Component)
  | getStatus (c : Option Component)
  | showError (msg : String)
  deriving DecidableEq, Repr

/-- The initial value handed to `sp.pydantic_form`:
`config or provider.get_default_config() or schema`. -/
inductive FormInit where
  | fromConfig (c : Config)
  | fromSchema (sch : Schema)
  deriving DecidableEq, Repr

/-- Outcome of one render cycle of `configure_component_loop` for one slot:
the session state afterwards, the trace of provider calls and UI errors, the
form's initial value (when a form was rendered), and the message of an
exception that escaped the controller, if any. -/
structure RenderResult where
  state : SlotState
  events : List Event
  form_init : Option FormInit
  escaped : Option String
  deriving DecidableEq, Repr

/-- `component, status = st.session_state.get(comp_key, (None, None))`:
an absent key yields the default `(None, None)`; a stored pair unpacks; the
bare `None` object cannot be unpacked and raises a `TypeError`. -/
def unpackSlot : Option PyVal → Except String (Option Component × Option ComponentStatus)
  | none => .ok (none, none)
  | some .pynone => .error "TypeError: cannot unpack non-iterable NoneType object"
  | some (.pair c s) => .ok (c, s)

/-- Lines 249-263 of `app.py`: unpack the slot (may raise), call
`provider.late_update(component)`, recompute
`provider.get_component_status(component)` and, only when the status is
`READY`, store `(component, status)` back into the slot. -/
def renderLateUpdate (p : Provider) (s : SlotState) (evs : List Event)
    (finit : Option FormInit) : RenderResult :=
  match unpackSlot s.comp_slot with
  | .error e => { state := s, events := evs, form_init := finit, escaped := some e }
  | .ok cs =>
      let component := cs.1
      let evs2 := evs ++ [Event.lateUpdate component, Event.getStatus component]
      let status := p.get_component_status component
      if status = ComponentStatus.READY then
        { state := { s with comp_slot := some (.pair component (some status)) },
          events := evs2, form_init := finit, escaped := none }
      else
        { state := s, events := evs2, form_init := finit, escaped := none }

/-- One render cycle of `configure_component_loop` (app.py lines 195-266)
for the selected provider.  `submission` is the value returned by
`sp.pydantic_form`: `some cfg` when the user submitted the form this cycle,
`none` otherwise.  With a schema present, the code first unpacks the slot
(line 222, may raise on a stored bare `None`), renders the form with initial
value `config or provider.get_default_config() or schema`, and on submission
tries `get_component_and_status`; on success it stores the result pair and
saves the config, on exception it shows an error and stores bare `None`.
With no schema it instantiates once while `st.session_state.get(comp_key)`
is `None` (no try/except there).  Both paths end in `renderLateUpdate`. -/
def configure_component_loop (p : Provider) (s : SlotState)
    (submission : Option Config) : RenderResult :=
  match p.get_config_schema with
  | some sch =>
      match unpackSlot s.comp_slot with
      | .error e => { state := s, events := [], form_init := none, escaped := some e }
      | .ok _ =>
          let finit : FormInit :=
            match s.config_slot with
            | some c => .fromConfig c
            | none =>
                match p.get_default_config with
                | some c => .fromConfig c
                | none => .fromSchema sch
          match submission with
          | some cfg =>
              match p.get_component_and_status (some cfg) with
              | .ok cs =>
                  let s1 : SlotState :=
                    { comp_slot := some (.pair (some cs.1) (some cs.2)),
                      config_slot := some cfg }
                  renderLateUpdate p s1 [Event.getCompAndStatus (some cfg)] (some finit)
              | .error e =>
                  let s1 : SlotState := { s with comp_slot := some .pynone }
                  renderLateUpdate p s1
                    [Event.getCompAndStatus (some cfg), Event.showError e] (some finit)
          | none => renderLateUpdate p s [] (some finit)
  | none =>
      if s.comp_slot = none ∨ s.comp_slot = some .pynone then
        match p.get_component_and_status none with
        | .ok cs =>
            renderLateUpdate p
              { s with comp_slot := some (.pair (some cs.1) (some cs.2)) }
              [Event.getCompAndStatus none] none
        | .error e =>
            { state := s, events := [Event.getCompAndStatus none],
              form_init := none, escaped := some e }
      else
        renderLateUpdate p s [] none

/-- Count of `get_component_and_status` calls in a trace. -/
def countCAS (evs : List Event) : Nat :=
  (evs.filter fun e => match e with | .getCompAndStatus _ => true | _ => false).length

/-- Count of `late_update` calls in a trace. -/
def countLate (evs : List Event) : Nat :=
  (evs.filter fun e => match e with | .lateUpdate _ => true | _ => false).length

/-- Iterated render cycles with no form submission. -/
def renderCycles (p : Provider) (s : SlotState) : Nat → SlotState × List Event
  | 0 => (s, [])
  | n + 1 =>
      let r := configure_component_loop p s none
      let rest := renderCycles p r.state n
      (rest.1, r.events ++ rest.2)

/-! ## Execution runner: the Workflow collaborator and the run sections -/

/-- A row of the scrape results table (columns
`link, content, scrape_success, scrape_error`). -/
structure ScrapeRow where
  link : String
  content : Option String
  scrape_success : Bool
  scrape_error : Option String
  deriving DecidableEq, Repr

/-- A row of the analysis results table (columns
`output, link, analysis_success, analysis_error`). -/
structure AnalyzeRow where
  output : Option String
  link : String
  analysis_success : Bool
  analysis_error : Option String
  deriving DecidableEq, Repr

/-- Modelled from the spec: the external `scraipe.Workflow` collaborator —
`scraper`/`analyzer` settable properties and the stored scrape/analysis
result tables (insertion order = processing order). -/
structure Workflow where
  scraper : Option Component
  analyzer : Option Component
  scrapes : List ScrapeRow
  analyses : List AnalyzeRow
  deriving DecidableEq, Repr

/-- `Workflow(scraper, analyzer)`: a fresh workflow with empty tables. -/
def Workflow.make (scraper analyzer : Option Component) : Workflow :=
  { scraper := scraper, analyzer := analyzer, scrapes := [], analyses := [] }

/-- Modelled from the spec: `workflow.clear_scrapes()` discards the stored
scrape results. -/
def clear_scrapes (wf : Workflow) : Workflow := { wf with scrapes := [] }

/-- Modelled from the spec: `workflow.clear_analyses()` discards the stored
analysis results. -/
def clear_analyses (wf : Workflow) : Workflow := { wf with analyses := [] }

/-- Modelled from the spec: one scrape result row.  A per-item error is
captured into that item's error field with `scrape_success=false`; a success
populates `content` with `scrape_success=true`.  `f` is the abstract
per-link scraping behaviour of the configured scraper (an exception is the
`Except.error` case). -/
def scrapeRowOf (f : String → Except String String) (link : String) : ScrapeRow :=
  match f link with
  | .ok content =>
      { link := link, content := some content, scrape_success := true,
        scrape_error := none }
  | .error msg =>
      { link := link, content := none, scrape_success := false,
        scrape_error := some msg }

/-- Modelled from the spec: `workflow.scrape_generator(links, overwrite)`
yields one result per link in order; with `overwrite` the prior rows for the
stage are discarded, otherwise the new rows are appended.  Returns the
workflow afterwards and the yielded sequence. -/
def scrape_generator (f : String → Except String String) (wf : Workflow)
    (links : List String) (overwrite : Bool) : Workflow × List ScrapeRow :=
  let rows := links.map (scrapeRowOf f)
  (if overwrite then { wf with scrapes := rows }
   else { wf with scrapes := wf.scrapes ++ rows }, rows)

/-- Modelled from the spec: `workflow.get_scrapes()` returns the stored
scrape results table. -/
def get_scrapes (wf : Workflow) : List ScrapeRow := wf.scrapes

/-- Modelled from the spec: one analysis result row over a scraped item;
per-item errors are captured with `analysis_success=false`. -/
def analyzeRowOf (g : ScrapeRow → Except String String) (row : ScrapeRow) :
    AnalyzeRow :=
  match g row with
  | .ok out =>
      { output := some out, link := row.link, analysis_success := true,
        analysis_error := none }
  | .error msg =>
      { output := none, link := row.link, analysis_success := false,
        analysis_error := some msg }

/-- Modelled from the spec: `workflow.analyze_generator(overwrite)` yields
one result per stored scrape row; with `overwrite` prior analysis rows are
discarded, otherwise appended. -/
def analyze_generator (g : ScrapeRow → Except String String) (wf : Workflow)
    (overwrite : Bool) : Workflow × List AnalyzeRow :=
  let rows := wf.scrapes.map (analyzeRowOf g)
  (if overwrite then { wf with analyses := rows }
   else { wf with analyses := wf.analyses ++ rows }, rows)

/-- Modelled from the spec: `workflow.get_analyses()` returns the stored
analysis results table. -/
def get_analyses (wf : Workflow) : List AnalyzeRow := wf.analyses

/-- Result of `App.get_workflow`: the session slot afterwards, the returned
workflow, and whether a new `Workflow` object was constructed. -/
structure GetWorkflowResult where
  session : Option Workflow
  workflow : Workflow
  created : Bool
  deriving DecidableEq, Repr

/-- `App.get_workflow(scraper, analyzer)` (app.py lines 35-49): construct
and store `Workflow(scraper, analyzer)` only when the `"workflow"` session
key is absent; then overwrite `workflow.scraper` / `workflow.analyzer` only
for the arguments that are not `None`.  The session holds the same (mutated)
object that is returned. -/
def get_workflow (session : Option Workflow) (scraper analyzer : Option Component) :
    GetWorkflowResult :=
  let base : Workflow × Bool :=
    match session with
    | none => (Workflow.make scraper analyzer, true)
    | some w => (w, false)
  let w1 : Workflow :=
    match scraper with
    | some c => { base.1 with scraper := some c }
    | none => base.1
  let w2 : Workflow :=
    match analyzer with
    | some c => { w1 with analyzer := some c }
    | none => w1
  { session := some w2, workflow := w2, created := base.2 }

/-- The progress loop of the run sections: for each yielded result, report
`acc / total` and then increment `acc` (the division is reported before the
increment, with `acc` starting at 0). -/
def progressLoop (total : Nat) (acc : Nat) : List ScrapeRow → List Rat
  | [] => []
  | _ :: rest => ((acc : Rat) / (total : Rat)) :: progressLoop total (acc + 1) rest

/-- The analyze section's progress loop, identical shape over analysis
results. -/
def progressLoopA (total : Nat) (acc : Nat) : List AnalyzeRow → List Rat
  | [] => []
  | _ :: rest => ((acc : Rat) / (total : Rat)) :: progressLoopA total (acc + 1) rest

/-- Outcome of one render of `run_scrape_section`: the session workflow
afterwards, the sequence of progress values reported, the table written to
`st.session_state["scrapes_df"]` (`none` = not written this cycle), and
whether the run body executed. -/
structure ScrapeSectionResult where
  session : Option Workflow
  progress_reports : List Rat
  scrapes_df : Option (List ScrapeRow)
  ran : Bool
  deriving DecidableEq, Repr

/-- `run_scrape_section` (app.py lines 277-315): unpack the scraper slot
(raises on a stored bare `None`), pass the scraper to `get_workflow`,
compute `can_run = status is not None and status == ComponentStatus.READY`,
and render the Scrape button with `disabled=not can_run` (a disabled button
cannot return `True`).  When pressed: `clear_scrapes`, drive
`scrape_generator(links, overwrite=True)` updating the progress bar, then
store `get_scrapes()` into the session. -/
def run_scrape_section (f : String → Except String String) (slot : Option PyVal)
    (clicked : Bool) (session : Option Workflow) (links : List String) :
    Except String ScrapeSectionResult :=
  match unpackSlot slot with
  | .error e => .error e
  | .ok cs =>
      let scraper := cs.1
      let status := cs.2
      let gw := get_workflow session scraper none
      let can_run := status.isSome && decide (status = some ComponentStatus.READY)
      let pressed := clicked && can_run
      if pressed then
        let wf1 := clear_scrapes gw.workflow
        let gen := scrape_generator f wf1 links true
        let reports := progressLoop links.length 0 gen.2
        let df := get_scrapes gen.1
        .ok { session := some gen.1, progress_reports := reports,
              scrapes_df := some df, ran := true }
      else
        .ok { session := gw.session, progress_reports := [],
              scrapes_df := none, ran := false }

/-- Outcome of one render of `run_analyze_section`. -/
structure AnalyzeSectionResult where
  session : Option Workflow
  progress_reports : List Rat
  analysis_df : Option (List AnalyzeRow)
  ran : Bool
  deriving DecidableEq, Repr

/-- `run_analyze_section` (app.py lines 322-363): unpack the analyzer slot,
pass the analyzer to `get_workflow`, gate the Analyze button on
`status == ComponentStatus.READY`; when pressed: `clear_analyses`, read
`get_scrapes()` for the progress denominator, drive
`analyze_generator(overwrite=True)` updating the progress bar, then store
`get_analyses()` into the session. -/
def run_analyze_section (g : ScrapeRow → Except String String) (slot : Option PyVal)
    (clicked : Bool) (session : Option Workflow) :
    Except String AnalyzeSectionResult :=
  match unpackSlot slot with
  | .error e => .error e
  | .ok cs =>
      let analyzer := cs.1
      let status := cs.2
      let gw := get_workflow session none analyzer
      let can_run := status.isSome && decide (status = some ComponentStatus.READY)
      let pressed := clicked && can_run
      if pressed then
        let wf1 := clear_analyses gw.workflow
        let scrapes_length := (get_scrapes wf1).length
        let gen := analyze_generator g wf1 true
        let reports := progressLoopA scrapes_length 0 gen.2
        .ok { session := some gen.1, progress_reports := reports,
              analysis_df := some (get_analyses gen.1), ran := true }
      else
        .ok { session := gw.session, progress_reports := [],
              analysis_df := none, ran := false }

/-! ## Default links (`default_config.py`)

Python lists are mutable heap objects; `get_default_links` returns
`_default_links.copy()`.  To state freshness and non-interference of the
copies, list objects live in an explicit heap of cells addressed by `Nat`;
the module-level `_default_links` object sits at address 0. -/

/-- The contents of the module-level `_default_links` list
(default_config.py lines 9-17). -/
def default_links_list : List String :=
  ["https://example.com",
   "https://rickandmortyapi.com/api/character/1",
   "https://ckaestne.github.io/seai/",
   "https://t.me/TelegramTips/515",
   "https://en.wikipedia.org/wiki/CSS_Industries",
   "https://www.cmu.edu/policies/student-and-student-life/academic-integrity.html",
   "https://privacy.cs.cmu.edu/masters/plan/courses/informationsecurity-privacy-and-policy.html"]

/-- A heap of Python list objects; the address of a cell is its index. -/
structure ListHeap where
  cells : List (List String)
  deriving DecidableEq, Repr

/-- The heap at module load: only `_default_links` exists, at address 0. -/
def initHeap : ListHeap := ⟨[default_links_list]⟩

/-- Read the list object at an address. -/
def readCell (h : ListHeap) (a : Nat) : List String := h.cells.getD a []

/-- In-place mutation of the list object at an address. -/
def writeCell (h : ListHeap) (a : Nat) (v : List String) : ListHeap :=
  ⟨h.cells.set a v⟩

/-- `get_default_links()` (default_config.py lines 20-27): return
`_default_links.copy()` — allocate a fresh list object holding the current
contents of the list at address 0 and return the new address. -/
def get_default_links (h : ListHeap) : ListHeap × Nat :=
  (⟨h.cells ++ [readCell h 0]⟩, h.cells.length)

/-- What a caller of `get_default_links` can do: call it again, or mutate a
list object returned by an earlier call (referred to by its position in the
sequence of returned addresses). -/
inductive LinkOp where
  | call
  | mutate (i : Nat) (v : List String)

/-- Run a sequence of caller operations, tracking the heap and the addresses
returned by the calls so far. -/
def runLinkOps : ListHeap → List Nat → List LinkOp → ListHeap × List Nat
  | h, addrs, [] => (h, addrs)
  | h, addrs, .call :: ops =>
      let r := get_default_links h
      runLinkOps r.1 (addrs ++ [r.2]) ops
  | h, addrs, .mutate i v :: ops =>
      match addrs.get? i with
      | some a => runLinkOps (writeCell h a v) addrs ops
      | none => runLinkOps h addrs ops

/-! ## Concrete fixtures used by evaluation theorems and witnesses -/

/-- A provider with a schema whose instantiation always raises. -/
def raisingProvider : Provider :=
  { get_config_schema := some 0
    get_default_config := none
    get_component_and_status := fun _ => .error "invalid configuration"
    get_component_status := fun _ => ComponentStatus.NOT_READY }

/-- A provider whose recomputed component status is never `READY`. -/
def notReadyProvider : Provider :=
  { get_config_schema := none
    get_default_config := none
    get_component_and_status := fun _ => .ok (0, ComponentStatus.READY)
    get_component_status := fun _ => ComponentStatus.NOT_READY }

/-- A schema-free provider whose component instantiates successfully. -/
def noSchemaProvider : Provider :=
  { get_config_schema := none
    get_default_config := none
    get_component_and_status := fun _ => .ok (3, ComponentStatus.NOT_READY)
    get_component_status := fun _ => ComponentStatus.NOT_READY }

/-- A provider with a schema and a default config whose component
instantiates successfully with a non-READY status. -/
def schemaProvider : Provider :=
  { get_config_schema := some 1
    get_default_config := some 2
    get_component_and_status := fun _ => .ok (4, ComponentStatus.PENDING)
    get_component_status := fun _ => ComponentStatus.NOT_READY }

/-- An analyzer behaviour that always succeeds. -/
def okAnalyze (_row : ScrapeRow) : Except String String := .ok "stats"

/-- A session workflow holding prior results: two scrape rows and one
analysis row from an earlier run. -/
def priorWorkflow : Workflow :=
  { scraper := none
    analyzer := none
    scrapes :=
      [{ link := "https://old1.test", content := some "old content 1",
         scrape_success := true, scrape_error := none },
       { link := "https://old2.test", content := none,
         scrape_success := false, scrape_error := some "old failure" }]
    analyses :=
      [{ output := some "old output", link := "https://old1.test",
         analysis_success := true, analysis_error := none }] }

/-- The spec's example inputs (spec section 8). -/
def exampleLinks : List String :=
  ["https://a.test", "https://bad.test", "https://c.test"]

/-- The spec's example scraper behaviour: the second link raises. -/
def exampleScrape (link : String) : Except String String :=
  if link = "https://bad.test" then .error "simulated scrape failure"
  else .ok ("content of " ++ link)

/-- A scraper slot holding a READY component. -/
def readySlot : Option PyVal :=
  some (.pair (some 0) (some ComponentStatus.READY))

/-- Whether an `Except`-embedded per-item computation succeeded. -/
def successOf (e : Except String String) : Bool :=
  match e with
  | .ok _ => true
  | .error _ => false

/-! ## Lemmas about the run sections -/

theorem countCAS_append (a b : List Event) :
    countCAS (a ++ b) = countCAS a + countCAS b := by
  simp [countCAS, List.filter_append]

theorem run_scrape_ran_inv (f : String → Except String String) (slot : Option PyVal)
    (clicked : Bool) (session : Option Workflow) (links : List String)
    (hs : (run_scrape_section f slot clicked session links).map (fun r => r.ran) = .ok true) :
    ∃ c, unpackSlot slot = .ok (c, some ComponentStatus.READY) ∧ clicked = true := by
  cases h : unpackSlot slot with
  | error e => simp [run_scrape_section, h, Except.map] at hs
  | ok cs =>
      obtain ⟨c, st⟩ := cs
      by_cases hp :
          (clicked && (st.isSome && decide (st = some ComponentStatus.READY))) = true
      · have hps := hp
        simp only [Bool.and_eq_true, decide_eq_true_eq] at hps
        exact ⟨c, by rw [hps.2.2], hps.1⟩
      · simp [run_scrape_section, h, hp, Except.map] at hs

theorem run_analyze_ran_inv (g : ScrapeRow → Except String String) (slot : Option PyVal)
    (clicked : Bool) (session : Option Workflow)
    (hs : (run_analyze_section g slot clicked session).map (fun r => r.ran) = .ok true) :
    ∃ c, unpackSlot slot = .ok (c, some ComponentStatus.READY) ∧ clicked = true := by
  cases h : unpackSlot slot with
  | error e => simp [run_analyze_section, h, Except.map] at hs
  | ok cs =>
      obtain ⟨c, st⟩ := cs
      by_cases hp :
          (clicked && (st.isSome && decide (st = some ComponentStatus.READY))) = true
      · have hps := hp
        simp only [Bool.and_eq_true, decide_eq_true_eq] at hps
        exact ⟨c, by rw [hps.2.2], hps.1⟩
      · simp [run_analyze_section, h, hp, Except.map] at hs

theorem run_scrape_section_pressed (f : String → Except String String)
    (slot : Option PyVal) (clicked : Bool) (session : Option Workflow)
    (links : List String) (c : Option Component)
    (h : unpackSlot slot = .ok (c, some ComponentStatus.READY)) (hc : clicked = true) :
    run_scrape_section f slot clicked session links =
      .ok { session := some { (get_workflow session c none).workflow with
                              scrapes := links.map (scrapeRowOf f) }
            progress_reports := progressLoop links.length 0 (links.map (scrapeRowOf f))
            scrapes_df := some (links.map (scrapeRowOf f))
            ran := true } := by
  simp [run_scrape_section, h, hc, clear_scrapes, scrape_generator, get_scrapes]

theorem run_analyze_section_pressed (g : ScrapeRow → Except String String)
    (slot : Option PyVal) (clicked : Bool) (session : Option Workflow)
    (c : Option Component)
    (h : unpackSlot slot = .ok (c, some ComponentStatus.READY)) (hc : clicked = true) :
    run_analyze_section g slot clicked session =
      .ok { session := some { (get_workflow session none c).workflow with
                              analyses :=
                                (get_workflow session none c).workflow.scrapes.map
                                  (analyzeRowOf g) }
            progress_reports :=
              progressLoopA (get_workflow session none c).workflow.scrapes.length 0
                ((get_workflow session none c).workflow.scrapes.map (analyzeRowOf g))
            analysis_df :=
              some ((get_workflow session none c).workflow.scrapes.map (analyzeRowOf g))
            ran := true } := by
  simp [run_analyze_section, h, hc, clear_analyses, analyze_generator, get_scrapes,
    get_analyses]

/-! ## Lemmas about the configuration controller -/

theorem renderLateUpdate_pair (p : Provider) (s : SlotState) (c : Option Component)
    (st0 : Option ComponentStatus) (evs : List Event) (finit : Option FormInit)
    (h : s.comp_slot = some (PyVal.pair c st0)) :
    renderLateUpdate p s evs finit =
      { state :=
          if p.get_component_status c = ComponentStatus.READY then
            { s with comp_slot := some (PyVal.pair c (some ComponentStatus.READY)) }
          else s
        events := evs ++ [Event.lateUpdate c, Event.getStatus c]
        form_init := finit
        escaped := none } := by
  by_cases hst : p.get_component_status c = ComponentStatus.READY
  · simp [renderLateUpdate, h, unpackSlot, hst]
  · simp [renderLateUpdate, h, unpackSlot, hst]

theorem renderLateUpdate_config_slot (p : Provider) (s : SlotState)
    (evs : List Event) (finit : Option FormInit) :
    (renderLateUpdate p s evs finit).state.config_slot = s.config_slot := by
  rcases h : unpackSlot s.comp_slot with e | cs <;> simp [renderLateUpdate, h]
  split <;> rfl

theorem renderLateUpdate_form_init (p : Provider) (s : SlotState)
    (evs : List Event) (finit : Option FormInit) :
    (renderLateUpdate p s evs finit).form_init = finit := by
  rcases h : unpackSlot s.comp_slot with e | cs <;> simp [renderLateUpdate, h]
  split <;> rfl

theorem slot_pair_render_no_cas (p : Provider) (s : SlotState) (c : Option Component)
    (st : Option ComponentStatus) (hsch : p.get_config_schema = none)
    (hpair : s.comp_slot = some (PyVal.pair c st)) :
    countCAS (configure_component_loop p s none).events = 0 ∧
    ∃ c2 st2,
      (configure_component_loop p s none).state.comp_slot = some (PyVal.pair c2 st2) := by
  have hne : ¬ (s.comp_slot = none ∨ s.comp_slot = some PyVal.pynone) := by
    simp [hpair]
  simp only [configure_component_loop, hsch]
  rw [if_neg hne]
  rw [renderLateUpdate_pair p s c st [] none hpair]
  refine ⟨by simp [countCAS], ?_⟩
  by_cases hst : p.get_component_status c = ComponentStatus.READY
  · rw [if_pos hst]
    exact ⟨c, some ComponentStatus.READY, rfl⟩
  · rw [if_neg hst]
    exact ⟨c, st, hpair⟩

theorem slot_pair_cycles_no_cas (p : Provider) (hsch : p.get_config_schema = none) :
    ∀ (n : Nat) (s : SlotState) (c : Option Component) (st : Option ComponentStatus),
      s.comp_slot = some (PyVal.pair c st) →
      countCAS (renderCycles p s n).2 = 0 := by
  intro n
  induction n with
  | zero => intro s c st _; simp [renderCycles, countCAS]
  | succ n ih =>
      intro s c st h
      obtain ⟨h0, c2, st2, h2⟩ := slot_pair_render_no_cas p s c st hsch h
      simp only [renderCycles]
      rw [countCAS_append, h0, ih _ c2 st2 h2]

/-! ## Claim theorems -/

/-- C1: on a configuration form submission whose `get_component_and_status`
raises, the controller shows a user-visible error and catches the exception
at the call site, but it then stores the bare `None` object in the slot
instead of `(None, None)`, and the following tuple unpacking
`component, _ = st.session_state.get(comp_key, (None, None))` (app.py line
250) raises a `TypeError` that escapes the controller on that same render
cycle, before `late_update` can run. -/
theorem construction_error_stores_bare_none_and_exception_escapes :
    (Event.showError "invalid configuration") ∈
      (configure_component_loop raisingProvider ⟨none, none⟩ (some 7)).events ∧
    (configure_component_loop raisingProvider ⟨none, none⟩ (some 7)).state.comp_slot =
      some PyVal.pynone ∧
    (configure_component_loop raisingProvider ⟨none, none⟩ (some 7)).state.comp_slot ≠
      some (PyVal.pair none none) ∧
    (configure_component_loop raisingProvider ⟨none, none⟩ (some 7)).escaped.isSome
      = true ∧
    countLate (configure_component_loop raisingProvider ⟨none, none⟩ (some 7)).events
      = 0 := by
  decide

/-- C2: whenever the Scrape (respectively Analyze) run body executes — the
button returned `True`, which a disabled button cannot — the stored status
of the corresponding slot equals `ComponentStatus.READY`; hence the
execution runner is never driven while that status differs from READY. -/
theorem run_buttons_gated_on_ready_status
    (f : String → Except String String) (slot : Option PyVal) (clicked : Bool)
    (session : Option Workflow) (links : List String)
    (g : ScrapeRow → Except String String) (slotA : Option PyVal) (clickedA : Bool)
    (sessionA : Option Workflow)
    (hs : (run_scrape_section f slot clicked session links).map (fun r => r.ran)
      = .ok true)
    (ha : (run_analyze_section g slotA clickedA sessionA).map (fun r => r.ran)
      = .ok true) :
    (∃ c, unpackSlot slot = .ok (c, some ComponentStatus.READY)) ∧
    (∃ c, unpackSlot slotA = .ok (c, some ComponentStatus.READY)) := by
  obtain ⟨c, h1, -⟩ := run_scrape_ran_inv f slot clicked session links hs
  obtain ⟨c2, h2, -⟩ := run_analyze_ran_inv g slotA clickedA sessionA ha
  exact ⟨⟨c, h1⟩, ⟨c2, h2⟩⟩

/-- Witness for C2 at concrete inputs where both run bodies execute. -/
theorem run_buttons_gated_on_ready_status_witness :
    (∃ c, unpackSlot readySlot = .ok (c, some ComponentStatus.READY)) ∧
    (∃ c, unpackSlot readySlot = .ok (c, some ComponentStatus.READY)) :=
  run_buttons_gated_on_ready_status exampleScrape readySlot true none exampleLinks
    okAnalyze readySlot true (some priorWorkflow) (by decide) (by decide)

/-- C3: a run triggered by the Scrape (respectively Analyze) button clears
the prior results with `clear_scrapes()` (respectively `clear_analyses()`)
and drives the generator with `overwrite=True`; afterwards the stored
scrape table is exactly the rows generated from the N current links
(respectively the rows generated from the current scrape table), whatever
the M rows stored before the run were. -/
theorem overwrite_run_replaces_results
    (f : String → Except String String) (slot : Option PyVal) (clicked : Bool)
    (session : Option Workflow) (links : List String)
    (g : ScrapeRow → Except String String) (slotA : Option PyVal) (clickedA : Bool)
    (sessionA : Option Workflow)
    (hs : (run_scrape_section f slot clicked session links).map (fun r => r.ran)
      = .ok true)
    (ha : (run_analyze_section g slotA clickedA sessionA).map (fun r => r.ran)
      = .ok true) :
    (∃ r wf, run_scrape_section f slot clicked session links = .ok r ∧
       r.session = some wf ∧ wf.scrapes = links.map (scrapeRowOf f) ∧
       wf.scrapes.length = links.length ∧ r.scrapes_df = some wf.scrapes) ∧
    (∃ r wf, run_analyze_section g slotA clickedA sessionA = .ok r ∧
       r.session = some wf ∧ wf.analyses = wf.scrapes.map (analyzeRowOf g) ∧
       wf.analyses.length = wf.scrapes.length ∧ r.analysis_df = some wf.analyses) := by
  obtain ⟨c, h1, hc1⟩ := run_scrape_ran_inv f slot clicked session links hs
  obtain ⟨c2, h2, hc2⟩ := run_analyze_ran_inv g slotA clickedA sessionA ha
  constructor
  · refine ⟨_, _, run_scrape_section_pressed f slot clicked session links c h1 hc1,
      rfl, rfl, ?_, rfl⟩
    simp
  · refine ⟨_, _, run_analyze_section_pressed g slotA clickedA sessionA c2 h2 hc2,
      rfl, rfl, ?_, rfl⟩
    simp

/-- Witness for C3: with two prior scrape rows and one prior analysis row in
the session workflow, both run bodies execute over the new inputs. -/
theorem overwrite_run_replaces_results_witness :
    (∃ r wf, run_scrape_section exampleScrape readySlot true (some priorWorkflow)
         exampleLinks = .ok r ∧
       r.session = some wf ∧ wf.scrapes = exampleLinks.map (scrapeRowOf exampleScrape) ∧
       wf.scrapes.length = exampleLinks.length ∧ r.scrapes_df = some wf.scrapes) ∧
    (∃ r wf, run_analyze_section okAnalyze readySlot true (some priorWorkflow)
         = .ok r ∧
       r.session = some wf ∧ wf.analyses = wf.scrapes.map (analyzeRowOf okAnalyze) ∧
       wf.analyses.length = wf.scrapes.length ∧ r.analysis_df = some wf.analyses) :=
  overwrite_run_replaces_results exampleScrape readySlot true (some priorWorkflow)
    exampleLinks okAnalyze readySlot true (some priorWorkflow) (by decide) (by decide)

/-- C4: for a batch of N links where link k raises, the run still produces a
table of N rows; row k has its success flag false and carries the captured
(non-empty) error message, and the success flag of every row equals the
actual outcome of that item's processing. -/
theorem partial_failure_isolation
    (f : String → Except String String) (slot : Option PyVal) (clicked : Bool)
    (session : Option Workflow) (links : List String) (k : Nat) (lnk msg : String)
    (hs : (run_scrape_section f slot clicked session links).map (fun r => r.ran)
      = .ok true)
    (hk : links[k]? = some lnk)
    (hf : f lnk = .error msg) (hmsg : msg ≠ "") :
    ∃ r rows, run_scrape_section f slot clicked session links = .ok r ∧
      r.scrapes_df = some rows ∧ rows.length = links.length ∧
      (∃ row, rows[k]? = some row ∧ row.scrape_success = false ∧
        row.scrape_error = some msg ∧ msg ≠ "") ∧
      ∀ (j : Nat) (l2 : String) (row : ScrapeRow),
        links[j]? = some l2 → rows[j]? = some row →
        row.scrape_success = successOf (f l2) := by
  obtain ⟨c, h1, hc1⟩ := run_scrape_ran_inv f slot clicked session links hs
  refine ⟨_, links.map (scrapeRowOf f),
    run_scrape_section_pressed f slot clicked session links c h1 hc1, rfl,
    by simp, ?_, ?_⟩
  · refine ⟨scrapeRowOf f lnk, ?_, ?_, ?_, hmsg⟩
    · rw [List.getElem?_map, hk]
      rfl
    · simp [scrapeRowOf, hf]
    · simp [scrapeRowOf, hf]
  · intro j l2 row hj hrow
    rw [List.getElem?_map, hj] at hrow
    have hrow2 : scrapeRowOf f l2 = row := by simpa using hrow
    subst hrow2
    cases hfl : f l2 <;> simp [scrapeRowOf, successOf, hfl]

/-- Witness for C4 at the spec's example input, where the second link
raises. -/
theorem partial_failure_isolation_witness :
    ∃ r rows, run_scrape_section exampleScrape readySlot true none exampleLinks
        = .ok r ∧
      r.scrapes_df = some rows ∧ rows.length = exampleLinks.length ∧
      (∃ row, rows[1]? = some row ∧ row.scrape_success = false ∧
        row.scrape_error = some "simulated scrape failure" ∧
        "simulated scrape failure" ≠ "") ∧
      ∀ (j : Nat) (l2 : String) (row : ScrapeRow),
        exampleLinks[j]? = some l2 → rows[j]? = some row →
        row.scrape_success = successOf (exampleScrape l2) :=
  partial_failure_isolation exampleScrape readySlot true none exampleLinks 1
    "https://bad.test" "simulated scrape failure" (by decide) (by decide) (by decide)
    (by decide)

/-- C6: at the spec's example input of three links the run executes, and the
sequence of values reported to the progress indicator is `[0, 1/3, 2/3]` —
the report of iteration k is (k-1)/N, the count of items completed before
the current one — so the value 1 (100%) is never reported and the indicator
does not reach 100% after the third iteration. -/
theorem progress_reports_never_reach_full :
    (run_scrape_section exampleScrape readySlot true none exampleLinks).map
        (fun r => r.progress_reports) = .ok [0, 1/3, 2/3] ∧
    exampleLinks.length = 3 ∧
    ¬ ((1 : Rat) ∈ ([0, 1/3, 2/3] : List Rat)) := by
  refine ⟨?_, by decide, by norm_num⟩
  simp [run_scrape_section, exampleScrape, readySlot, exampleLinks, unpackSlot,
    get_workflow, clear_scrapes, scrape_generator, scrapeRowOf, get_scrapes,
    progressLoop, Workflow.make]
  norm_num [Except.map]

/-- C5 counterexample: a slot holding component 5 with stored status READY,
under a provider whose recomputed `get_component_status` is NOT_READY.  The
render cycle recomputes the status but does not persist
`(component, recomputed status)`: the slot keeps `(5, READY)` and is not
`(5, NOT_READY)`, contradicting "persists the pair (component, status) ...
whatever the recomputed status is". -/
theorem recomputed_status_not_persisted_counterexample :
    notReadyProvider.get_component_status (some 5) = ComponentStatus.NOT_READY ∧
    countLate (configure_component_loop notReadyProvider
      ⟨some (.pair (some 5) (some ComponentStatus.READY)), none⟩ none).events = 1 ∧
    (configure_component_loop notReadyProvider
      ⟨some (.pair (some 5) (some ComponentStatus.READY)), none⟩ none).state.comp_slot
      = some (PyVal.pair (some 5) (some ComponentStatus.READY)) ∧
    (configure_component_loop notReadyProvider
      ⟨some (.pair (some 5) (some ComponentStatus.READY)), none⟩ none).state.comp_slot
      ≠ some (PyVal.pair (some 5) (some ComponentStatus.NOT_READY)) := by
  decide

/-- C5 (amended): on every render cycle in which the slot holds a component
when the post-configuration update runs — either the stored component when
no submission occurs, or the freshly instantiated one after a successful
submission — the controller invokes `late_update(component)` exactly once,
then recomputes `get_component_status(component)`, and persists
`(component, status)` into the slot only when the recomputed status is
READY; otherwise the slot keeps the value it had after the configuration
phase. -/
theorem late_update_every_cycle_persists_only_when_ready :
    (∀ (p : Provider) (s : SlotState) (c : Component) (st0 : Option ComponentStatus),
      s.comp_slot = some (PyVal.pair (some c) st0) →
      countLate (configure_component_loop p s none).events = 1 ∧
      Event.lateUpdate (some c) ∈ (configure_component_loop p s none).events ∧
      Event.getStatus (some c) ∈ (configure_component_loop p s none).events ∧
      (configure_component_loop p s none).escaped = none ∧
      (configure_component_loop p s none).state.comp_slot =
        (if p.get_component_status (some c) = ComponentStatus.READY then
          some (PyVal.pair (some c) (some ComponentStatus.READY))
         else s.comp_slot)) ∧
    (∀ (p : Provider) (s : SlotState) (sch : Schema) (cfg : Config)
        (c : Component) (st : ComponentStatus),
      p.get_config_schema = some sch → s.comp_slot ≠ some PyVal.pynone →
      p.get_component_and_status (some cfg) = .ok (c, st) →
      countLate (configure_component_loop p s (some cfg)).events = 1 ∧
      Event.lateUpdate (some c) ∈ (configure_component_loop p s (some cfg)).events ∧
      Event.getStatus (some c) ∈ (configure_component_loop p s (some cfg)).events ∧
      (configure_component_loop p s (some cfg)).escaped = none ∧
      (configure_component_loop p s (some cfg)).state.comp_slot =
        (if p.get_component_status (some c) = ComponentStatus.READY then
          some (PyVal.pair (some c) (some ComponentStatus.READY))
         else some (PyVal.pair (some c) (some st)))) := by
  constructor
  · intro p s c st0 h
    have hres :
        configure_component_loop p s none =
          renderLateUpdate p s []
            (match p.get_config_schema with
             | some sch => some
                (match s.config_slot with
                 | some c => FormInit.fromConfig c
                 | none =>
                     match p.get_default_config with
                     | some c => FormInit.fromConfig c
                     | none => FormInit.fromSchema sch)
             | none => none) := by
      cases hsch : p.get_config_schema with
      | none =>
          have hne : ¬ (s.comp_slot = none ∨ s.comp_slot = some PyVal.pynone) := by
            simp [h]
          simp only [configure_component_loop, hsch]
          rw [if_neg hne]
      | some sch =>
          simp only [configure_component_loop, hsch, h, unpackSlot]
    rw [hres, renderLateUpdate_pair p s (some c) st0 _ _ h]
    by_cases hst : p.get_component_status (some c) = ComponentStatus.READY
    · rw [if_pos hst, if_pos hst]
      exact ⟨by simp [countLate], by simp, by simp, rfl, rfl⟩
    · rw [if_neg hst, if_neg hst]
      exact ⟨by simp [countLate], by simp, by simp, rfl, rfl⟩
  · intro p s sch cfg c st hsch hslot hcas
    have hok : ∃ pr, unpackSlot s.comp_slot = .ok pr := by
      rcases hsl : s.comp_slot with _ | pv
      · exact ⟨(none, none), rfl⟩
      · cases pv with
        | pynone => exact absurd hsl hslot
        | pair c2 st2 => exact ⟨(c2, st2), rfl⟩
    obtain ⟨pr, hokeq⟩ := hok
    have hres :
        configure_component_loop p s (some cfg) =
          renderLateUpdate p
            { comp_slot := some (PyVal.pair (some c) (some st)),
              config_slot := some cfg }
            [Event.getCompAndStatus (some cfg)]
            (some
              (match s.config_slot with
               | some c => FormInit.fromConfig c
               | none =>
                   match p.get_default_config with
                   | some c => FormInit.fromConfig c
                   | none => FormInit.fromSchema sch)) := by
      simp only [configure_component_loop, hsch, hokeq, hcas]
    rw [hres,
      renderLateUpdate_pair p _ (some c) (some st) _ _ rfl]
    by_cases hst : p.get_component_status (some c) = ComponentStatus.READY
    · rw [if_pos hst, if_pos hst]
      exact ⟨by simp [countLate], by simp, by simp, rfl, rfl⟩
    · rw [if_neg hst, if_neg hst]
      exact ⟨by simp [countLate], by simp, by simp, rfl, rfl⟩

/-- Witness for the amended C5: both cases at concrete inputs. -/
theorem late_update_every_cycle_persists_only_when_ready_witness :
    countLate (configure_component_loop notReadyProvider
      ⟨some (PyVal.pair (some 5) (some ComponentStatus.READY)), none⟩ none).events
      = 1 ∧
    countLate (configure_component_loop schemaProvider ⟨none, none⟩ (some 7)).events
      = 1 :=
  ⟨(late_update_every_cycle_persists_only_when_ready.1 notReadyProvider
      ⟨some (PyVal.pair (some 5) (some ComponentStatus.READY)), none⟩ 5
      (some ComponentStatus.READY) rfl).1,
   (late_update_every_cycle_persists_only_when_ready.2 schemaProvider
      ⟨none, none⟩ 1 7 4 ComponentStatus.PENDING rfl (by decide) rfl).1⟩

/-- C7: for a provider with no schema, selecting it with an absent slot
instantiates via `get_component_and_status(None)` exactly once over any
number of further render cycles (the first cycle calls it once and caches a
pair; later cycles see the non-None cached entry and call it zero times);
and any render cycle whose cached slot entry is a stored pair performs zero
such calls. -/
theorem no_schema_component_instantiated_once
    (p : Provider) (s : SlotState) (c : Component) (st : ComponentStatus) (n : Nat)
    (hsch : p.get_config_schema = none)
    (hslot : s.comp_slot = none)
    (hcas : p.get_component_and_status none = .ok (c, st)) :
    countCAS (renderCycles p s (n + 1)).2 = 1 ∧
    ∀ (s2 : SlotState) (c2 : Option Component) (st2 : Option ComponentStatus),
      s2.comp_slot = some (PyVal.pair c2 st2) →
      countCAS (configure_component_loop p s2 none).events = 0 := by
  constructor
  · have hcond : s.comp_slot = none ∨ s.comp_slot = some PyVal.pynone := Or.inl hslot
    have hres :
        configure_component_loop p s none =
          renderLateUpdate p
            { s with comp_slot := some (PyVal.pair (some c) (some st)) }
            [Event.getCompAndStatus none] none := by
      simp only [configure_component_loop, hsch]
      rw [if_pos hcond, hcas]
    have h1 : countCAS (configure_component_loop p s none).events = 1 ∧
        ∃ c2 st2, (configure_component_loop p s none).state.comp_slot =
          some (PyVal.pair c2 st2) := by
      rw [hres, renderLateUpdate_pair p _ (some c) (some st) _ _ rfl]
      refine ⟨by simp [countCAS], ?_⟩
      by_cases hst : p.get_component_status (some c) = ComponentStatus.READY
      · rw [if_pos hst]
        exact ⟨some c, some ComponentStatus.READY, rfl⟩
      · rw [if_neg hst]
        exact ⟨some c, some st, rfl⟩
    obtain ⟨h1c, c2, st2, h2⟩ := h1
    simp only [renderCycles]
    rw [countCAS_append, h1c, slot_pair_cycles_no_cas p hsch n _ c2 st2 h2]
  · intro s2 c2 st2 h2
    exact (slot_pair_render_no_cas p s2 c2 st2 hsch h2).1

/-- Witness for C7: the schema-free fixture over three render cycles. -/
theorem no_schema_component_instantiated_once_witness :
    countCAS (renderCycles noSchemaProvider ⟨none, none⟩ (2 + 1)).2 = 1 :=
  (no_schema_component_instantiated_once noSchemaProvider ⟨none, none⟩ 3
    ComponentStatus.NOT_READY 2 rfl rfl rfl).1

/-- C8: with a schema present (and the slot not holding the crash-inducing
bare `None`), the form's initial value is the saved config under the
role-and-provider-name key when present, else the provider's default
config, else the bare schema; the saved config is unchanged when no
submission occurs and when a submission's instantiation raises, and it is
set to the submitted config exactly when instantiation succeeds. -/
theorem form_initial_values_and_saved_config
    (p : Provider) (s : SlotState) (sch : Schema) (submission : Option Config)
    (hsch : p.get_config_schema = some sch)
    (hslot : s.comp_slot ≠ some PyVal.pynone) :
    ((∀ c0, s.config_slot = some c0 →
        (configure_component_loop p s submission).form_init =
          some (FormInit.fromConfig c0)) ∧
     (∀ d, s.config_slot = none → p.get_default_config = some d →
        (configure_component_loop p s submission).form_init =
          some (FormInit.fromConfig d)) ∧
     (s.config_slot = none → p.get_default_config = none →
        (configure_component_loop p s submission).form_init =
          some (FormInit.fromSchema sch))) ∧
    ((submission = none →
        (configure_component_loop p s submission).state.config_slot = s.config_slot) ∧
     (∀ cfg c st, submission = some cfg →
        p.get_component_and_status (some cfg) = .ok (c, st) →
        (configure_component_loop p s submission).state.config_slot = some cfg) ∧
     (∀ cfg e, submission = some cfg →
        p.get_component_and_status (some cfg) = .error e →
        (configure_component_loop p s submission).state.config_slot
          = s.config_slot)) := by
  have hok : ∃ pr, unpackSlot s.comp_slot = .ok pr := by
    rcases hsl : s.comp_slot with _ | pv
    · exact ⟨(none, none), rfl⟩
    · cases pv with
      | pynone => exact absurd hsl hslot
      | pair c2 st2 => exact ⟨(c2, st2), rfl⟩
  obtain ⟨pr, hokeq⟩ := hok
  refine ⟨⟨?_, ?_, ?_⟩, ?_, ?_, ?_⟩
  · intro c0 hc0
    cases submission with
    | none =>
        simp only [configure_component_loop, hsch, hokeq, hc0]
        rw [renderLateUpdate_form_init]
    | some cfg =>
        rcases hcas : p.get_component_and_status (some cfg) with e | cs <;>
          simp only [configure_component_loop, hsch, hokeq, hc0, hcas] <;>
          rw [renderLateUpdate_form_init]
  · intro d hc0 hd
    cases submission with
    | none =>
        simp only [configure_component_loop, hsch, hokeq, hc0, hd]
        rw [renderLateUpdate_form_init]
    | some cfg =>
        rcases hcas : p.get_component_and_status (some cfg) with e | cs <;>
          simp only [configure_component_loop, hsch, hokeq, hc0, hd, hcas] <;>
          rw [renderLateUpdate_form_init]
  · intro hc0 hd
    cases submission with
    | none =>
        simp only [configure_component_loop, hsch, hokeq, hc0, hd]
        rw [renderLateUpdate_form_init]
    | some cfg =>
        rcases hcas : p.get_component_and_status (some cfg) with e | cs <;>
          simp only [configure_component_loop, hsch, hokeq, hc0, hd, hcas] <;>
          rw [renderLateUpdate_form_init]
  · intro hsub
    subst hsub
    simp only [configure_component_loop, hsch, hokeq]
    rw [renderLateUpdate_config_slot]
  · intro cfg c st hsub hcas
    subst hsub
    simp only [configure_component_loop, hsch, hokeq, hcas]
    rw [renderLateUpdate_config_slot]
  · intro cfg e hsub hcas
    subst hsub
    simp only [configure_component_loop, hsch, hokeq, hcas]
    rw [renderLateUpdate_config_slot]

/-- Witness for C8: the schema fixture with a saved config, submitting. -/
theorem form_initial_values_and_saved_config_witness :
    (configure_component_loop schemaProvider ⟨none, some 9⟩ (some 7)).form_init =
      some (FormInit.fromConfig 9) ∧
    (configure_component_loop schemaProvider ⟨none, some 9⟩ (some 7)).state.config_slot
      = some 7 :=
  ⟨((form_initial_values_and_saved_config schemaProvider ⟨none, some 9⟩ 1 (some 7)
      rfl (by decide)).1.1 9 rfl),
   ((form_initial_values_and_saved_config schemaProvider ⟨none, some 9⟩ 1 (some 7)
      rfl (by decide)).2.2.1 7 4 ComponentStatus.PENDING rfl rfl)⟩

/-- C9: with a workflow already stored in the session, `get_workflow`
constructs no new `Workflow`; a `None` argument leaves the corresponding
property unchanged while a non-`None` argument replaces only it; the result
tables are untouched; the session keeps holding the (same, possibly
mutated) returned object; and after any call, any further call never
constructs either — the session's workflow is created at most once. -/
theorem get_workflow_created_once_and_frame
    (session : Option Workflow) (w : Workflow) (scr ana : Option Component)
    (hs : session = some w) :
    (get_workflow session scr ana).created = false ∧
    (get_workflow session scr ana).workflow.scraper =
      (match scr with | some c => some c | none => w.scraper) ∧
    (get_workflow session scr ana).workflow.analyzer =
      (match ana with | some c => some c | none => w.analyzer) ∧
    (get_workflow session scr ana).workflow.scrapes = w.scrapes ∧
    (get_workflow session scr ana).workflow.analyses = w.analyses ∧
    (get_workflow session scr ana).session =
      some (get_workflow session scr ana).workflow ∧
    ∀ scr2 ana2,
      (get_workflow (get_workflow session scr ana).session scr2 ana2).created
        = false := by
  subst hs
  refine ⟨?_, ?_, ?_, ?_, ?_, ?_, ?_⟩ <;>
    first
      | (cases scr <;> cases ana <;> rfl)
      | (intro scr2 ana2; cases scr2 <;> cases ana2 <;> rfl)

/-- Witness for C9: a session workflow with prior tables, setting only the
scraper. -/
theorem get_workflow_created_once_and_frame_witness :
    (get_workflow (some priorWorkflow) (some 8) none).created = false ∧
    (get_workflow (some priorWorkflow) (some 8) none).workflow.analyzer =
      priorWorkflow.analyzer :=
  ⟨(get_workflow_created_once_and_frame (some priorWorkflow) priorWorkflow
      (some 8) none rfl).1,
   (get_workflow_created_once_and_frame (some priorWorkflow) priorWorkflow
      (some 8) none rfl).2.2.1⟩

/-- Invariant of the default-links heap under caller operations: the
module-level list at address 0 keeps its contents, and every address a call
returned is nonzero and in bounds. -/
theorem runLinkOps_inv (ops : List LinkOp) :
    ∀ (h : ListHeap) (addrs : List Nat),
      readCell h 0 = default_links_list →
      (∀ a ∈ addrs, 0 < a ∧ a < h.cells.length) →
      readCell (runLinkOps h addrs ops).1 0 = default_links_list ∧
      ∀ a ∈ (runLinkOps h addrs ops).2,
        0 < a ∧ a < (runLinkOps h addrs ops).1.cells.length := by
  induction ops with
  | nil =>
      intro h addrs h0 ha
      exact ⟨h0, ha⟩
  | cons op ops ih =>
      intro h addrs h0 ha
      cases op with
      | call =>
          have hlen : 0 < h.cells.length := by
            by_contra hc
            have hnil : h.cells = [] := List.eq_nil_of_length_eq_zero (by omega)
            rw [readCell, hnil] at h0
            simp [default_links_list] at h0
          simp only [runLinkOps, get_default_links]
          apply ih
          · simp only [readCell, List.getD, List.get?_eq_getElem?] at h0 ⊢
            rw [List.getElem?_append_left hlen]
            exact h0
          · intro a hmem
            rcases List.mem_append.mp hmem with hold | hnew
            · have := ha a hold
              simp only [List.length_append, List.length_cons, List.length_nil]
              omega
            · have heq : a = h.cells.length := by simpa using hnew
              subst heq
              simp only [List.length_append, List.length_cons, List.length_nil]
              omega
      | mutate i v =>
          rcases hi : addrs.get? i with _ | a
          · simp only [runLinkOps, hi]
            exact ih h addrs h0 ha
          · simp only [runLinkOps, hi]
            have hmem : a ∈ addrs := by
              rw [List.get?_eq_getElem?] at hi
              exact List.getElem?_mem hi
            obtain ⟨hpos, hlt⟩ := ha a hmem
            apply ih
            · simp only [readCell, writeCell, List.getD, List.get?_eq_getElem?]
                at h0 ⊢
              rw [List.getElem?_set_ne (show a ≠ 0 by omega)]
              exact h0
            · intro b hb
              obtain ⟨hb1, hb2⟩ := ha b hb
              refine ⟨hb1, ?_⟩
              simp only [writeCell, List.length_set]
              exact hb2

/-- C10: after any sequence of caller operations — calls to
`get_default_links` and in-place mutations of lists returned by earlier
calls — a further call to `get_default_links` returns a fresh list object
(an address none of the earlier calls returned) whose contents equal the
fixed seven default link strings. -/
theorem default_links_fresh_copy_and_immutable (ops : List LinkOp) :
    readCell (get_default_links (runLinkOps initHeap [] ops).1).1
        (get_default_links (runLinkOps initHeap [] ops).1).2
      = default_links_list ∧
    (get_default_links (runLinkOps initHeap [] ops).1).2 ∉
      (runLinkOps initHeap [] ops).2 ∧
    default_links_list.length = 7 := by
  obtain ⟨h0, hb⟩ := runLinkOps_inv ops initHeap [] rfl (by simp)
  refine ⟨?_, ?_, rfl⟩
  · rw [get_default_links]
    simp only [readCell, List.getD, List.get?_eq_getElem?]
    rw [List.getElem?_concat_length]
    simp only [Option.getD_some]
    simp only [readCell, List.getD, List.get?_eq_getElem?] at h0
    exact h0
  · intro hmem
    have hlt := (hb _ hmem).2
    have : (get_default_links (runLinkOps initHeap [] ops).1).2
        = (runLinkOps initHeap [] ops).1.cells.length := rfl
    omega

end ScraipeSt
